import Mathlib

/-!
Shallow embedding of the fetch → extract → cache → structured-extraction
pipeline of the Imli repository (src/process_case_from_url.py,
src/uscis_fetcher.py, src/day4_structured_extraction.py), together with
theorems settling the frozen claims about it.

External collaborators (the `requests` HTTP client, the PyMuPDF text
extractor, the OpenAI model backend, and the Python `json` serializer)
are modelled as explicit inputs or as an abstract serialization type,
exactly at the granularity the orchestrator observes them.
-/

/-! ## SHA-256 over byte lists (models Python's hashlib.sha256)

`url_to_cache_key` in src/process_case_from_url.py is
`hashlib.sha256(url.encode("utf-8")).hexdigest()[:16]`; we implement
SHA-256 (FIPS 180-4) over `List Nat` bytes with 32-bit words as `Nat`
reduced mod 2^32, and validate it against the standard test vectors. -/

/-- Reduce a natural number to a 32-bit word. -/
def w32 (n : Nat) : Nat := n % 4294967296

/-- Right rotation of a 32-bit word by `k` bits. -/
def rotr32 (k x : Nat) : Nat := w32 ((x >>> k) ||| (x <<< (32 - k)))

/-- Bitwise complement of a 32-bit word. -/
def not32 (x : Nat) : Nat := x ^^^ 4294967295

/-- SHA-256 Ch function. -/
def shaCh (x y z : Nat) : Nat := (x &&& y) ^^^ (not32 x &&& z)

/-- SHA-256 Maj function. -/
def shaMaj (x y z : Nat) : Nat := (x &&& y) ^^^ (x &&& z) ^^^ (y &&& z)

/-- SHA-256 big Sigma0. -/
def bsig0 (x : Nat) : Nat := rotr32 2 x ^^^ rotr32 13 x ^^^ rotr32 22 x

/-- SHA-256 big Sigma1. -/
def bsig1 (x : Nat) : Nat := rotr32 6 x ^^^ rotr32 11 x ^^^ rotr32 25 x

/-- SHA-256 small sigma0. -/
def ssig0 (x : Nat) : Nat := rotr32 7 x ^^^ rotr32 18 x ^^^ (x >>> 3)

/-- SHA-256 small sigma1. -/
def ssig1 (x : Nat) : Nat := rotr32 17 x ^^^ rotr32 19 x ^^^ (x >>> 10)

/-- The 64 SHA-256 round constants, in decimal. -/
def K256 : List Nat :=
  [1116352408, 1899447441, 3049323471, 3921009573, 961987163, 1508970993,
   2453635748, 2870763221, 3624381080, 310598401, 607225278, 1426881987,
   1925078388, 2162078206, 2614888103, 3248222580, 3835390401, 4022224774,
   264347078, 604807628, 770255983, 1249150122, 1555081692, 1996064986,
   2554220882, 2821834349, 2952996808, 3210313671, 3336571891, 3584528711,
   113926993, 338241895, 666307205, 773529912, 1294757372, 1396182291,
   1695183700, 1986661051, 2177026350, 2456956037, 2730485921, 2820302411,
   3259730800, 3345764771, 3516065817, 3600352804, 4094571909, 275423344,
   430227734, 506948616, 659060556, 883997877, 958139571, 1322822218,
   1537002063, 1747873779, 1955562222, 2024104815, 2227730452, 2361852424,
   2428436474, 2756734187, 3204031479, 3329325298]

/-- Big-endian byte expansion of a number into exactly `k` bytes. -/
def beBytes : Nat → Nat → List Nat
  | 0, _ => []
  | k + 1, n => beBytes k (n / 256) ++ [n % 256]

/-- A big-endian 32-bit word from a list of bytes. -/
def beWord (bs : List Nat) : Nat := bs.foldl (fun acc b => acc * 256 + b) 0

/-- Group a byte list into big-endian 32-bit words, four bytes at a time. -/
def chunk4 : List Nat → List Nat
  | b0 :: b1 :: b2 :: b3 :: rest => beWord [b0, b1, b2, b3] :: chunk4 rest
  | _ => []

/-- Split a byte list into successive 64-byte blocks (fueled recursion). -/
def chunks64Aux : Nat → List Nat → List (List Nat)
  | 0, _ => []
  | _, [] => []
  | fuel + 1, bs => bs.take 64 :: chunks64Aux fuel (bs.drop 64)

/-- Split a byte list into successive 64-byte blocks. -/
def chunks64 (bs : List Nat) : List (List Nat) := chunks64Aux bs.length bs

/-- SHA-256 padding: append 0x80, zero bytes to 56 mod 64, then the
64-bit big-endian bit length. -/
def padMsg (msg : List Nat) : List Nat :=
  let L := msg.length
  let zeros := (119 - L % 64) % 64
  msg ++ [128] ++ List.replicate zeros 0 ++ beBytes 8 (8 * L)

/-- One step of the message-schedule extension. -/
def scheduleStep (ws : List Nat) : List Nat :=
  let n := ws.length
  let g := fun i => ws.getD i 0
  ws ++ [w32 (g (n - 16) + ssig0 (g (n - 15)) + g (n - 7) + ssig1 (g (n - 2)))]

/-- Iterate the message-schedule extension `k` times. -/
def extendW : Nat → List Nat → List Nat
  | 0, ws => ws
  | k + 1, ws => extendW k (scheduleStep ws)

/-- The 64-word message schedule of one 64-byte block. -/
def msgSchedule (block : List Nat) : List Nat := extendW 48 (chunk4 block)

/-- The eight 32-bit working variables of the SHA-256 compression. -/
structure Hash8 where
  a : Nat
  b : Nat
  c : Nat
  d : Nat
  e : Nat
  f : Nat
  g : Nat
  h : Nat

/-- The SHA-256 initial hash value, in decimal. -/
def initH : Hash8 :=
  ⟨1779033703, 3144134277, 1013904242, 2773480762,
   1359893119, 2600822924, 528734635, 1541459225⟩

/-- One SHA-256 round; `kw` is the round constant plus the schedule word. -/
def shaRound (st : Hash8) (kw : Nat) : Hash8 :=
  let t1 := w32 (st.h + bsig1 st.e + shaCh st.e st.f st.g + kw)
  let t2 := w32 (bsig0 st.a + shaMaj st.a st.b st.c)
  ⟨w32 (t1 + t2), st.a, st.b, st.c, w32 (st.d + t1), st.e, st.f, st.g⟩

/-- Compress one 64-byte block into the running hash state. -/
def compressBlock (st : Hash8) (block : List Nat) : Hash8 :=
  let ws := msgSchedule block
  let fin := (K256.zip ws).foldl (fun s kw => shaRound s (kw.1 + kw.2)) st
  ⟨w32 (st.a + fin.a), w32 (st.b + fin.b), w32 (st.c + fin.c), w32 (st.d + fin.d),
   w32 (st.e + fin.e), w32 (st.f + fin.f), w32 (st.g + fin.g), w32 (st.h + fin.h)⟩

/-- SHA-256 digest of a byte list, as its 32 output bytes. -/
def sha256Bytes (msg : List Nat) : List Nat :=
  let fin := (chunks64 (padMsg msg)).foldl compressBlock initH
  beBytes 4 fin.a ++ beBytes 4 fin.b ++ beBytes 4 fin.c ++ beBytes 4 fin.d ++
  beBytes 4 fin.e ++ beBytes 4 fin.f ++ beBytes 4 fin.g ++ beBytes 4 fin.h

/-- A lowercase hexadecimal digit character for a value below 16. -/
def hexDigit (n : Nat) : Char :=
  if n < 10 then Char.ofNat (48 + n) else Char.ofNat (87 + n)

/-- The two hex characters of one byte. -/
def hexByte (b : Nat) : List Char := [hexDigit (b / 16), hexDigit (b % 16)]

/-- Hex characters of a byte list. -/
def hexOfBytes : List Nat → List Char
  | [] => []
  | b :: rest => hexByte b ++ hexOfBytes rest

/-- Models Python's `hashlib.sha256(msg).hexdigest()`. -/
def sha256_hexdigest (msg : List Nat) : String := String.mk (hexOfBytes (sha256Bytes msg))

/-- UTF-8 encoding of one character (by code point). -/
def utf8Char (c : Char) : List Nat :=
  let n := c.toNat
  if n < 128 then [n]
  else if n < 2048 then [192 + n / 64, 128 + n % 64]
  else if n < 65536 then [224 + n / 4096, 128 + (n / 64) % 64, 128 + n % 64]
  else [240 + n / 262144, 128 + (n / 4096) % 64, 128 + (n / 64) % 64, 128 + n % 64]

/-- Models Python's `s.encode("utf-8")`. -/
def utf8Encode (s : String) : List Nat := s.data.foldr (fun c acc => utf8Char c ++ acc) []

/-- Models Python string slicing `s[:n]` (first `n` code points). -/
def pyTake (n : Nat) (s : String) : String := String.mk (s.data.take n)

/-- Embeds `url_to_cache_key` from src/process_case_from_url.py:
the first 16 hex characters of the SHA-256 digest of the UTF-8 URL. -/
def url_to_cache_key (url : String) : String :=
  pyTake 16 (sha256_hexdigest (utf8Encode url))

/-! ## JSON values and the serialization abstraction

The pipeline stores and exchanges JSON; numbers are modelled as integers
since no claim involves numeric content. A file or model response is
either the serialization of a JSON value (on which `json.loads` / the
model-output parse succeeds) or corrupt bytes on which it fails; this is
the contract of the external Python `json` module the code relies on
(`json.dump` always writes parseable output, `json.load` inverts it). -/

/-- A JSON value. -/
inductive Json where
  | null : Json
  | bool : Bool → Json
  | num : Int → Json
  | str : String → Json
  | arr : List Json → Json
  | obj : List (String × Json) → Json

/-- The content of a cache file or of a raw model response: either the
serialization of a JSON value, or bytes on which JSON parsing fails. -/
inductive FileBytes where
  | jsonOf : Json → FileBytes
  | corrupt : String → FileBytes

/-- Field lookup in a JSON object (Python's `data.get(k)`); `none` when
the value is not an object or the key is absent. -/
def jsonField : Json → String → Option Json
  | Json.obj fs, k => fs.lookup k
  | _, _ => none

/-! ## HTTP responses and the error taxonomy -/

/-- A transport-level failure raised by `requests.get` itself
(timeout, connection error) before any response exists. -/
inductive TransportErr where
  | timeout : TransportErr
  | connectionError : TransportErr
deriving DecidableEq

/-- An HTTP response as `download_pdf_bytes` observes it: the status
code, the Content-Type header when present (`resp.headers.get` returns
the default for a missing header), and the body bytes (`resp.content`). -/
structure HttpResponse where
  status : Nat
  contentType : Option String
  content : List Nat
deriving DecidableEq

/-- The exceptions that can escape the pipeline, matching the Python
exception raised at each point: `json.JSONDecodeError` from
`get_cached_case`, a `requests` transport exception, `requests.HTTPError`
from `raise_for_status`, the `ValueError` of `download_pdf_bytes`, and
the `json.JSONDecodeError` re-raised after the model call. -/
inductive PipelineError where
  | jsonDecodeCache : String → PipelineError
  | transport : TransportErr → PipelineError
  | httpStatus : Nat → PipelineError
  | valueError : String → PipelineError
  | jsonDecodeModel : String → PipelineError
deriving DecidableEq

/-! ## Content Fetcher (src/uscis_fetcher.py) -/

/-- Models Python's `s.lower()` (ASCII case folding suffices here). -/
def pyLower (s : String) : String := String.mk (s.data.map Char.toLower)

/-- Models Python's substring test `needle in hay`. -/
def strContains (needle hay : String) : Bool := decide (needle.data <:+: hay.data)

/-- Embeds `download_pdf_bytes` from src/uscis_fetcher.py. Its input is
the outcome of `requests.get(url, stream=True, timeout=30)`: either a
transport exception or a response. `raise_for_status` raises for 4xx/5xx
status codes; then the Content-Type header (defaulted to "" when absent)
must contain "pdf" case-insensitively, else a `ValueError` naming the
actual content type is raised; otherwise the body bytes are returned. -/
def download_pdf_bytes :
    Except TransportErr HttpResponse → Except PipelineError (List Nat)
  | Except.error e => Except.error (PipelineError.transport e)
  | Except.ok resp =>
    if 400 ≤ resp.status ∧ resp.status < 600 then
      Except.error (PipelineError.httpStatus resp.status)
    else
      let content_type := resp.contentType.getD ""
      if strContains "pdf" (pyLower content_type) = false then
        Except.error (PipelineError.valueError
          ("URL does not appear to be a PDF. Content-Type: " ++ content_type))
      else
        Except.ok resp.content

/-! ## Cache Store (src/process_case_from_url.py)

The cases/ directory is modelled as an association list from the file
name stem (the cache key) to the file's content; `List.lookup` finds the
first binding, so consing a new binding onto the front models the
unconditional overwrite of `json.dump` to the same path. -/

/-- The on-disk cache: cache key to file content. -/
abbrev Cache := List (String × FileBytes)

/-- Embeds `get_cached_case`: if a file named `key.json` exists, parse it
with `json.load` — a file that does not parse raises
`json.JSONDecodeError` to the caller; otherwise return the data; no file
at all yields `None`. A file containing the JSON text `null` parses to
Python `None`, so the function's return value is then indistinguishable
from the no-file case: both are `None` to the caller, and the
orchestrator's `if cached is not None` treats the entry as a miss.
`Except.ok none` therefore models the Python `None` return, covering
both the absent file and the stored-`null` file. -/
def get_cached_case (cache : Cache) (url : String) :
    Except PipelineError (Option Json) :=
  match cache.lookup (url_to_cache_key url) with
  | none => Except.ok none
  | some (FileBytes.jsonOf Json.null) => Except.ok none
  | some (FileBytes.jsonOf data) => Except.ok (some data)
  | some (FileBytes.corrupt raw) => Except.error (PipelineError.jsonDecodeCache raw)

/-- Embeds `save_cached_case`: serialize `data` to the file named by the
URL's cache key, overwriting any previous content. -/
def save_cached_case (cache : Cache) (url : String) (data : Json) : Cache :=
  (url_to_cache_key url, FileBytes.jsonOf data) :: cache

/-! ## Prompts (src/process_case_from_url.py, step 4) -/

/-- The system message of the structured-extraction call, verbatim. -/
def system_message : String :=
  "You are an expert U.S. immigration law assistant. " ++
  "Given a USCIS or AAO decision, you extract key case facts into a strict JSON object. " ++
  "You NEVER guess or infer information. You ONLY extract information explicitly stated in the text."

/-- The part of the user message before the interpolated `text_chunk`,
verbatim from the f-string template. -/
def user_message_intro : String :=
  "\nRead the following USCIS/AAO decision text and extract the key information into a JSON object.\n" ++
  "\nReturn ONLY valid JSON. Do not include any explanation or commentary, just the JSON.\n" ++
  "\nIMPORTANT RULES (DO NOT BREAK THESE):\n" ++
  "- NEVER guess, infer, approximate, assume, or fabricate any information.\n" ++
  "- ONLY include values that are explicitly stated in the text.\n" ++
  "- If a value is not explicitly stated, set to null (for dates/numbers) or \"unknown\" (for strings).\n" ++
  "- If you are unsure, return null/unknown.\n" ++
  "- If the field cannot be copied VERBATIM from the text, return null/unknown.\n" ++
  "\nThe JSON object MUST have exactly these fields:\n" ++
  "\n- case_id: string (ONLY if the decision text explicitly contains a case number, AAO reference, or receipt number. If not explicitly present, set to \"unknown\". Do NOT infer or guess.)\n" ++
  "- visa_type: string or null (examples: \"O-1\", \"H-1B\", \"EB-2\", \"unknown\")\n" ++
  "- case_type: string (examples: \"initial\", \"appeal\", \"motion\", \"unknown\")\n" ++
  "- beneficiary_role: string or null\n" ++
  "- decision_outcome: string (one of: \"approved\", \"denied\", \"dismissed\", \"sustained\", \"withdrawn\", \"remanded\", \"unknown\")\n" ++
  "- decision_date: string or null (ONLY if explicitly shown. Use ISO format \"YYYY-MM-DD\". Do NOT infer or guess ANY dates.)\n" ++
  "- service_center: string or null (ONLY if explicitly shown. Do NOT infer, even if hints exist.)\n" ++
  "- aao_docket_number: string or null (ONLY if explicitly present. Never guess.)\n" ++
  "- regulatory_citations: array of strings (ONLY citations explicitly shown)\n" ++
  "- issues: array of strings\n" ++
  "- criteria_met: array of strings\n" ++
  "- criteria_not_met: array of strings\n" ++
  "- procedural_issues: array of strings\n" ++
  "- key_evidence: array of strings\n" ++
  "- risk_factors: array of strings\n" ++
  "- notes: string\n" ++
  "\nIf a field is not explicitly stated in the text, set it to null or \"unknown\" as appropriate.\n" ++
  "\nDecision text:\n"

/-- The user message with `text_chunk` interpolated where the f-string
places it (followed by the template's closing newline). -/
def user_message (text_chunk : String) : String :=
  user_message_intro ++ text_chunk ++ "\n"

/-! ## Pipeline Orchestrator (src/process_case_from_url.py) -/

/-- The external collaborators a `process_uscis_case` call interacts
with: the outcome `requests.get(url, ...)` would produce, the text
`extract_text_from_pdf_bytes` produces for given bytes (a black box,
assumed total), and the raw content the model backend returns for given
system and user messages (which either parses as JSON or does not). -/
structure Env where
  http : Except TransportErr HttpResponse
  extractText : List Nat → String
  modelComplete : String → String → FileBytes

/-- Call-count instrumentation: how many times the pipeline invoked
`download_pdf_bytes`, `extract_text_from_pdf_bytes`, and the model
backend, and the exact (system, user) prompt pairs sent to the model. -/
structure Trace where
  fetchCalls : Nat
  extractCalls : Nat
  modelCalls : Nat
  modelPrompts : List (String × String)
deriving DecidableEq

/-- The trace of a call that touched no external collaborator. -/
def noCalls : Trace := ⟨0, 0, 0, []⟩

/-- Embeds `process_uscis_case`: check the cache (a corrupt entry's
parse error propagates); on a hit return the cached data; on a miss
fetch the PDF bytes, extract text, truncate to the first 12000
characters, call the model with the fixed prompts, parse its response
as JSON (a parse failure re-raises), save to the cache, and return.
The result is paired with the final cache state and the call trace. -/
def process_uscis_case (env : Env) (cache : Cache) (url : String) :
    Except PipelineError Json × Cache × Trace :=
  match get_cached_case cache url with
  | Except.error e => (Except.error e, cache, noCalls)
  | Except.ok (some cached) => (Except.ok cached, cache, noCalls)
  | Except.ok none =>
    match download_pdf_bytes env.http with
    | Except.error e => (Except.error e, cache, ⟨1, 0, 0, []⟩)
    | Except.ok pdf_bytes =>
      let full_text := env.extractText pdf_bytes
      let text_chunk := pyTake 12000 full_text
      let raw_content := env.modelComplete system_message (user_message text_chunk)
      let tr : Trace := ⟨1, 1, 1, [(system_message, user_message text_chunk)]⟩
      match raw_content with
      | FileBytes.corrupt raw => (Except.error (PipelineError.jsonDecodeModel raw), cache, tr)
      | FileBytes.jsonOf data => (Except.ok data, save_cached_case cache url data, tr)

/-! ## The day4 standalone script (src/day4_structured_extraction.py)

The only case_id fallback in the repository lives in this standalone,
file-based script, not in the URL pipeline. -/

/-- Models Python's truthiness test on an optional JSON value
(`not data.get("case_id")` is true for a missing key, None, False,
zero, the empty string, and empty containers). -/
def pyFalsy : Option Json → Bool
  | none => true
  | some Json.null => true
  | some (Json.bool b) => !b
  | some (Json.num n) => n == 0
  | some (Json.str s) => s == ""
  | some (Json.arr xs) => xs.isEmpty
  | some (Json.obj fs) => fs.isEmpty

/-- The condition of day4 line 88:
`not data.get("case_id") or data["case_id"] in [None, "", "unknown"]`
(when the key is missing the first disjunct short-circuits, so the
subscript never raises). -/
def case_id_needs_fallback (v : Option Json) : Bool :=
  pyFalsy v ||
    (match v with
     | some Json.null => true
     | some (Json.str s) => s == "" || s == "unknown"
     | _ => false)

/-- Python dict assignment `fs[k] = v`: replace the value at an existing
key in place, or append a new binding. -/
def objUpdate : List (String × Json) → String → Json → List (String × Json)
  | [], k, v => [(k, v)]
  | (k0, v0) :: rest, k, v =>
    if k0 = k then (k0, v) :: rest else (k0, v0) :: objUpdate rest k v

/-- Models Python's `os.path.basename` for POSIX paths: the part of the
path after the last slash. -/
def os_path_basename (p : String) : String :=
  String.mk (p.data.foldl (fun acc c => if c = '/' then [] else acc ++ [c]) [])

/-- Embeds day4 lines 87-89: with `case_id_from_filename` being the
basename of the local PDF path, override `case_id` exactly when the
model returned a missing/falsy value or one of None, "", "unknown". -/
def day4_apply_case_id_fallback (fs : List (String × Json)) (pdf_path : String) :
    List (String × Json) :=
  let case_id_from_filename := os_path_basename pdf_path
  if case_id_needs_fallback (fs.lookup "case_id") then
    objUpdate fs "case_id" (Json.str case_id_from_filename)
  else
    fs

/-! ## Schema vocabulary (from the prompt's field list) -/

/-- The sixteen field names the prompt instructs the model to emit. -/
def requiredFields : List String :=
  ["case_id", "visa_type", "case_type", "beneficiary_role", "decision_outcome",
   "decision_date", "service_center", "aao_docket_number", "regulatory_citations",
   "issues", "criteria_met", "criteria_not_met", "procedural_issues",
   "key_evidence", "risk_factors", "notes"]

/-- The seven decision_outcome values the prompt permits. -/
def allowedOutcomes : List String :=
  ["approved", "denied", "dismissed", "sustained", "withdrawn", "remanded", "unknown"]

/-- Whether a JSON value is an object carrying exactly the fixed field
set, in the prompt's order. -/
def hasSchema : Json → Bool
  | Json.obj fs => (fs.map Prod.fst) == requiredFields
  | _ => false

/-- Whether a JSON value's decision_outcome is one of the seven
permitted enum values. -/
def outcomeOk (d : Json) : Bool :=
  match jsonField d "decision_outcome" with
  | some (Json.str s) => allowedOutcomes.contains s
  | _ => false

/-! ## Concrete scenario material (shared by witnesses) -/

/-- A full sixteen-field record as in the spec's example scenario. -/
def sampleRecord : Json :=
  Json.obj [("case_id", Json.str "ABC123"), ("visa_type", Json.str "O-1"),
    ("case_type", Json.str "unknown"), ("beneficiary_role", Json.null),
    ("decision_outcome", Json.str "approved"), ("decision_date", Json.null),
    ("service_center", Json.null), ("aao_docket_number", Json.null),
    ("regulatory_citations", Json.arr []), ("issues", Json.arr []),
    ("criteria_met", Json.arr []), ("criteria_not_met", Json.arr []),
    ("procedural_issues", Json.arr []), ("key_evidence", Json.arr []),
    ("risk_factors", Json.arr []), ("notes", Json.str "")]

/-- An HTTP 200 response that declares a PDF content type. -/
def pdfResponse : HttpResponse := ⟨200, some "application/pdf", [37, 80, 68, 70]⟩

/-- An HTTP 200 response that declares an HTML content type. -/
def htmlResponse : HttpResponse := ⟨200, some "text/html", [60]⟩

/-- An HTTP 200 response with no Content-Type header at all. -/
def bareResponse : HttpResponse := ⟨200, none, [37]⟩

/-- The text the mocked extractor yields in the spec's example scenario. -/
def sampleText : String := "Case No. ABC123. Visa type O-1. Approved."

/-- The example URL of the spec's scenario. -/
def urlEx : String := "https://example.org/decision.pdf"

/-- A mocked environment where fetch, extraction, and the model all
succeed and the model returns the example record. -/
def envOk : Env :=
  ⟨Except.ok pdfResponse, fun _ => sampleText, fun _ _ => FileBytes.jsonOf sampleRecord⟩

/-- A mocked environment whose HTTP fetch times out. -/
def envFail : Env :=
  ⟨Except.error TransportErr.timeout, fun _ => sampleText, fun _ _ => FileBytes.corrupt "oops"⟩

/-- The trace of a successful cache-miss run in `envOk`. -/
def trOk : Trace := ⟨1, 1, 1, [(system_message, user_message (pyTake 12000 sampleText))]⟩

/-- A cache whose entry for `urlEx` holds bytes that do not parse. -/
def corruptCache : Cache := [(url_to_cache_key urlEx, FileBytes.corrupt "not json")]

/-- A mocked environment whose model responds with the JSON text "null"
(which `json.loads` turns into Python None and `json.dump` writes back
as `null`). -/
def envNull : Env :=
  ⟨Except.ok pdfResponse, fun _ => sampleText, fun _ _ => FileBytes.jsonOf Json.null⟩

/-! ## Branch lemmas for the orchestrator -/

/-- A cache-layer error (corrupt entry) propagates before any call. -/
theorem process_cache_error (env : Env) (cache : Cache) (url : String) (e : PipelineError)
    (h : get_cached_case cache url = Except.error e) :
    process_uscis_case env cache url = (Except.error e, cache, noCalls) := by
  unfold process_uscis_case
  rw [h]

/-- A cache hit returns the cached record with no external calls. -/
theorem process_cache_hit (env : Env) (cache : Cache) (url : String) (r : Json)
    (h : get_cached_case cache url = Except.ok (some r)) :
    process_uscis_case env cache url = (Except.ok r, cache, noCalls) := by
  unfold process_uscis_case
  rw [h]

/-- On a miss, a fetch failure aborts with the cache unchanged. -/
theorem process_fetch_error (env : Env) (cache : Cache) (url : String) (e : PipelineError)
    (h0 : get_cached_case cache url = Except.ok none)
    (h1 : download_pdf_bytes env.http = Except.error e) :
    process_uscis_case env cache url = (Except.error e, cache, ⟨1, 0, 0, []⟩) := by
  unfold process_uscis_case
  rw [h0, h1]

/-- On a miss with a fetched PDF, an unparseable model response
re-raises with the cache unchanged. -/
theorem process_model_corrupt (env : Env) (cache : Cache) (url : String)
    (bs : List Nat) (raw : String)
    (h0 : get_cached_case cache url = Except.ok none)
    (h1 : download_pdf_bytes env.http = Except.ok bs)
    (h2 : env.modelComplete system_message (user_message (pyTake 12000 (env.extractText bs)))
        = FileBytes.corrupt raw) :
    process_uscis_case env cache url
      = (Except.error (PipelineError.jsonDecodeModel raw), cache,
         ⟨1, 1, 1, [(system_message, user_message (pyTake 12000 (env.extractText bs)))]⟩) := by
  unfold process_uscis_case
  rw [h0, h1]
  simp only [h2]

/-- On a miss with a fetched PDF and a parseable model response, the
parsed data is saved and returned. -/
theorem process_miss_model_json (env : Env) (cache : Cache) (url : String)
    (bs : List Nat) (dta : Json)
    (h0 : get_cached_case cache url = Except.ok none)
    (h1 : download_pdf_bytes env.http = Except.ok bs)
    (h2 : env.modelComplete system_message (user_message (pyTake 12000 (env.extractText bs)))
        = FileBytes.jsonOf dta) :
    process_uscis_case env cache url
      = (Except.ok dta, save_cached_case cache url dta,
         ⟨1, 1, 1, [(system_message, user_message (pyTake 12000 (env.extractText bs)))]⟩) := by
  unfold process_uscis_case
  rw [h0, h1]
  simp only [h2]

/-- A cache file that holds the serialization of a non-null `r` makes
`get_cached_case` return `r` (a stored JSON `null` reads back as the
Python `None` return instead). -/
theorem get_cached_case_of_lookup (cache : Cache) (url : String) (r : Json)
    (h : cache.lookup (url_to_cache_key url) = some (FileBytes.jsonOf r))
    (hrn : r ≠ Json.null) :
    get_cached_case cache url = Except.ok (some r) := by
  unfold get_cached_case
  rw [h]
  cases r with
  | null => exact absurd rfl hrn
  | bool b => rfl
  | num n => rfl
  | str s => rfl
  | arr xs => rfl
  | obj fs => rfl

/-- Conversely, a successful cached read came from such a file. -/
theorem lookup_of_get_cached_case (cache : Cache) (url : String) (r : Json)
    (h : get_cached_case cache url = Except.ok (some r)) :
    cache.lookup (url_to_cache_key url) = some (FileBytes.jsonOf r) := by
  unfold get_cached_case at h
  cases hl : cache.lookup (url_to_cache_key url) with
  | none => rw [hl] at h; cases h
  | some fb =>
    cases fb with
    | jsonOf d => cases d <;> rw [hl] at h <;> simp at h <;> simp [h]
    | corrupt raw => rw [hl] at h; cases h

/-- A successful cached read never yields the JSON null value. -/
theorem get_cached_case_ne_null (cache : Cache) (url : String) (r : Json)
    (h : get_cached_case cache url = Except.ok (some r)) :
    r ≠ Json.null := by
  unfold get_cached_case at h
  cases hl : cache.lookup (url_to_cache_key url) with
  | none => rw [hl] at h; cases h
  | some fb =>
    cases fb with
    | jsonOf d => cases d <;> rw [hl] at h <;> simp at h <;> simp [← h]
    | corrupt raw => rw [hl] at h; cases h

/-- A cache entry whose file serializes a non-null `r` makes the
pipeline return `r` immediately, with no external calls. -/
theorem process_hit_of_lookup (env : Env) (cache : Cache) (url : String) (r : Json)
    (h : cache.lookup (url_to_cache_key url) = some (FileBytes.jsonOf r))
    (hrn : r ≠ Json.null) :
    process_uscis_case env cache url = (Except.ok r, cache, noCalls) :=
  process_cache_hit env cache url r (get_cached_case_of_lookup cache url r h hrn)

/-- After any successful run, the final cache maps the URL's key to the
serialization of the returned record. -/
theorem process_ok_lookup (env : Env) (cache : Cache) (url : String) (r : Json)
    (c2 : Cache) (t : Trace)
    (h : process_uscis_case env cache url = (Except.ok r, c2, t)) :
    c2.lookup (url_to_cache_key url) = some (FileBytes.jsonOf r) := by
  cases hgc : get_cached_case cache url with
  | error e => rw [process_cache_error env cache url e hgc] at h; simp at h
  | ok o =>
    cases o with
    | some cached =>
      rw [process_cache_hit env cache url cached hgc] at h
      simp only [Prod.mk.injEq, Except.ok.injEq] at h
      obtain ⟨h1, h2, h3⟩ := h
      rw [← h2, ← h1]
      exact lookup_of_get_cached_case cache url cached hgc
    | none =>
      cases hd : download_pdf_bytes env.http with
      | error e => rw [process_fetch_error env cache url e hgc hd] at h; simp at h
      | ok bs =>
        cases hm : env.modelComplete system_message
            (user_message (pyTake 12000 (env.extractText bs))) with
        | corrupt raw =>
          rw [process_model_corrupt env cache url bs raw hgc hd hm] at h; simp at h
        | jsonOf dta =>
          rw [process_miss_model_json env cache url bs dta hgc hd hm] at h
          simp at h
          obtain ⟨h1, h2, h3⟩ := h
          rw [← h2, ← h1]
          simp [save_cached_case, List.lookup]

/-- FIPS 180-4 test vector: the digest of the empty message. -/
theorem sha256_vector_empty :
    sha256_hexdigest [] =
      "e3b0c44298fc1c149afbf4c8996fb92427ae41e4649b934ca495991b7852b855" := by
  rfl

/-- FIPS 180-4 test vector: the digest of the three bytes "abc". -/
theorem sha256_vector_abc :
    sha256_hexdigest (utf8Encode "abc") =
      "ba7816bf8f01cfea414140de5dae2223b00361a396177a9cb410ff61f20015ad" := by
  rfl

/-! ## Claim theorems -/

/-- C1 (amended): for every URL on which `process_uscis_case` has
already completed successfully with a record other than JSON null
(under any environment, so a usable cache entry exists), a second call —
under any environment at all — returns the identical stored record,
leaves the cache unchanged, and performs zero fetcher calls, zero
text-extraction calls, and zero model calls. When the stored record is
JSON null the cache file reads back as Python None, the `cached is not
None` hit test fails, and the second call re-runs the whole pipeline. -/
theorem process_second_call_returns_cached_without_calls
    (env env2 : Env) (cache : Cache) (url : String) (r : Json) (c2 : Cache) (t : Trace)
    (hrn : r ≠ Json.null)
    (h : process_uscis_case env cache url = (Except.ok r, c2, t)) :
    process_uscis_case env2 c2 url = (Except.ok r, c2, noCalls) :=
  process_hit_of_lookup env2 c2 url r (process_ok_lookup env cache url r c2 t h) hrn

/-- Witness for C1: after the spec's example scenario run, a second call
returns the identical record with the all-zero call trace. -/
theorem process_second_call_returns_cached_without_calls_witness :
    process_uscis_case envOk (save_cached_case [] urlEx sampleRecord) urlEx
      = (Except.ok sampleRecord, save_cached_case [] urlEx sampleRecord, noCalls) :=
  process_second_call_returns_cached_without_calls envOk envOk [] urlEx sampleRecord
    (save_cached_case [] urlEx sampleRecord) trOk (by simp [sampleRecord]) rfl

/-- C1 counterexample: in an environment whose model response is the
JSON text "null", the first call completes successfully and writes the
cache entry, yet the second call for the same URL performs another
fetch (and extraction and model call): the original claim's zero-call
guarantee fails for a cached JSON null. -/
theorem process_second_call_after_null_counterexample :
    process_uscis_case envNull [] urlEx
      = (Except.ok Json.null, save_cached_case [] urlEx Json.null,
         ⟨1, 1, 1, [(system_message, user_message (pyTake 12000 sampleText))]⟩)
    ∧ (process_uscis_case envNull (save_cached_case [] urlEx Json.null) urlEx).2.2
        = ⟨1, 1, 1, [(system_message, user_message (pyTake 12000 sampleText))]⟩ := by
  constructor
  · exact process_miss_model_json envNull [] urlEx [37, 80, 68, 70] Json.null rfl rfl rfl
  · have hget : get_cached_case (save_cached_case [] urlEx Json.null) urlEx
        = Except.ok none := by
      unfold get_cached_case save_cached_case
      simp [List.lookup]
    rw [process_miss_model_json envNull (save_cached_case [] urlEx Json.null) urlEx
      [37, 80, 68, 70] Json.null hget rfl rfl]
    rfl

/-- C3: a cache file that exists but holds bytes that do not parse as
JSON makes `process_uscis_case` surface the parse error to the caller,
with the cache unchanged and zero fetch, extraction, and model calls —
the corrupt entry is never silently bypassed by re-running the pipeline. -/
theorem process_corrupt_cache_raises (env : Env) (cache : Cache) (url raw : String)
    (h : cache.lookup (url_to_cache_key url) = some (FileBytes.corrupt raw)) :
    process_uscis_case env cache url
      = (Except.error (PipelineError.jsonDecodeCache raw), cache, noCalls) := by
  apply process_cache_error
  unfold get_cached_case
  rw [h]

/-- Witness for C3: a concretely corrupted cache entry for the example
URL aborts the call with the corruption error and no external calls. -/
theorem process_corrupt_cache_raises_witness :
    process_uscis_case envOk corruptCache urlEx
      = (Except.error (PipelineError.jsonDecodeCache "not json"), corruptCache, noCalls) :=
  process_corrupt_cache_raises envOk corruptCache urlEx "not json"
    (by simp [corruptCache, List.lookup])

/-- C4: whenever `process_uscis_case` ends in an error — a corrupt cache
read, a transport or HTTP failure, the content-type validation, or an
unparseable model response — the cache after the call is exactly the
cache before it: no partial write ever happens. -/
theorem process_failure_writes_no_cache (env : Env) (cache : Cache) (url : String)
    (e : PipelineError) (c2 : Cache) (t : Trace)
    (h : process_uscis_case env cache url = (Except.error e, c2, t)) :
    c2 = cache := by
  cases hgc : get_cached_case cache url with
  | error e0 =>
    rw [process_cache_error env cache url e0 hgc] at h
    simp only [Prod.mk.injEq] at h
    exact h.2.1.symm
  | ok o =>
    cases o with
    | some cached =>
      rw [process_cache_hit env cache url cached hgc] at h
      simp at h
    | none =>
      cases hd : download_pdf_bytes env.http with
      | error e0 =>
        rw [process_fetch_error env cache url e0 hgc hd] at h
        simp only [Prod.mk.injEq] at h
        exact h.2.1.symm
      | ok bs =>
        cases hm : env.modelComplete system_message
            (user_message (pyTake 12000 (env.extractText bs))) with
        | corrupt raw =>
          rw [process_model_corrupt env cache url bs raw hgc hd hm] at h
          simp only [Prod.mk.injEq] at h
          exact h.2.1.symm
        | jsonOf dta =>
          rw [process_miss_model_json env cache url bs dta hgc hd hm] at h
          simp at h

/-- Witness for C4: a timed-out fetch on an empty cache leaves the cache
empty. -/
theorem process_failure_writes_no_cache_witness :
    (process_uscis_case envFail [] urlEx).2.1 = ([] : Cache) := by
  have h : process_uscis_case envFail [] urlEx
      = (Except.error (PipelineError.transport TransportErr.timeout), ([] : Cache),
         (⟨1, 0, 0, []⟩ : Trace)) := rfl
  have h2 := process_failure_writes_no_cache envFail [] urlEx
    (PipelineError.transport TransportErr.timeout) [] ⟨1, 0, 0, []⟩ h
  rw [h]

/-- C9 (amended): when two URLs collide on the 16-hex-character
truncated cache key, a successful run for the first URL storing a
record other than JSON null makes a subsequent call for the second URL
return the first URL's cached record unchanged, with zero fetch,
extraction, and model calls: the truncated key aliases the two URLs.
When the stored record is JSON null, the aliased entry reads back as
Python None and the second call re-runs the whole pipeline. -/
theorem process_aliased_key_returns_first_record
    (env env2 : Env) (cache : Cache) (url1 url2 : String) (r : Json) (c2 : Cache) (t : Trace)
    (hrn : r ≠ Json.null)
    (hkey : url_to_cache_key url1 = url_to_cache_key url2)
    (h : process_uscis_case env cache url1 = (Except.ok r, c2, t)) :
    process_uscis_case env2 c2 url2 = (Except.ok r, c2, noCalls) := by
  refine process_hit_of_lookup env2 c2 url2 r ?_ hrn
  rw [← hkey]
  exact process_ok_lookup env cache url1 r c2 t h

/-- Witness for C9, applying the aliasing theorem at a concrete pair of
URLs with equal keys. -/
theorem process_aliased_key_returns_first_record_witness :
    process_uscis_case envFail (save_cached_case [] "https://u.example/a.pdf" sampleRecord)
        "https://u.example/a.pdf"
      = (Except.ok sampleRecord,
         save_cached_case [] "https://u.example/a.pdf" sampleRecord, noCalls) :=
  process_aliased_key_returns_first_record envOk envFail [] "https://u.example/a.pdf"
    "https://u.example/a.pdf" sampleRecord
    (save_cached_case [] "https://u.example/a.pdf" sampleRecord)
    ⟨1, 1, 1, [(system_message, user_message (pyTake 12000 sampleText))]⟩
    (by simp [sampleRecord]) rfl rfl

/-! ## Digest shape lemmas for the cache key -/

/-- Big-endian expansion has exactly the requested number of bytes. -/
theorem beBytes_length (k n : Nat) : (beBytes k n).length = k := by
  induction k generalizing n with
  | zero => rfl
  | succ k ih => simp [beBytes, ih]

/-- Big-endian expansion yields genuine bytes. -/
theorem beBytes_lt (k n : Nat) : ∀ b ∈ beBytes k n, b < 256 := by
  induction k generalizing n with
  | zero => simp [beBytes]
  | succ k ih =>
    intro b hb
    simp only [beBytes, List.mem_append, List.mem_singleton] at hb
    rcases hb with hb | hb
    · exact ih (n / 256) b hb
    · rw [hb]; exact Nat.mod_lt _ (by norm_num)

/-- A SHA-256 digest is exactly 32 bytes. -/
theorem sha256Bytes_length (msg : List Nat) : (sha256Bytes msg).length = 32 := by
  unfold sha256Bytes
  simp [beBytes_length]

/-- Every element of a SHA-256 digest is a byte. -/
theorem sha256Bytes_lt (msg : List Nat) : ∀ b ∈ sha256Bytes msg, b < 256 := by
  intro b hb
  unfold sha256Bytes at hb
  simp only [List.mem_append] at hb
  rcases hb with ((((((h | h) | h) | h) | h) | h) | h) | h <;> exact beBytes_lt 4 _ b h

/-- Hex rendering doubles the byte count. -/
theorem hexOfBytes_length (bs : List Nat) : (hexOfBytes bs).length = 2 * bs.length := by
  induction bs with
  | nil => rfl
  | cons b rest ih =>
    show (hexByte b ++ hexOfBytes rest).length = 2 * (b :: rest).length
    have h2 : (hexByte b).length = 2 := rfl
    rw [List.length_append, h2, ih, List.length_cons]
    omega

/-- A value below 16 renders as one of the sixteen hex characters. -/
theorem hexDigit_mem (n : Nat) (h : n < 16) : hexDigit n ∈ "0123456789abcdef".data := by
  interval_cases n <;> decide

/-- Hex rendering of bytes produces only hex characters. -/
theorem hexOfBytes_mem (bs : List Nat) (hb : ∀ b ∈ bs, b < 256) :
    ∀ c ∈ hexOfBytes bs, c ∈ "0123456789abcdef".data := by
  induction bs with
  | nil => simp [hexOfBytes]
  | cons b rest ih =>
    intro c hc
    have hc2 : c = hexDigit (b / 16) ∨ c = hexDigit (b % 16) ∨ c ∈ hexOfBytes rest := by
      simpa [hexOfBytes, hexByte] using hc
    rcases hc2 with hc | hc | hc
    · rw [hc]
      apply hexDigit_mem
      have hblt := hb b (by simp)
      omega
    · rw [hc]
      exact hexDigit_mem _ (Nat.mod_lt _ (by norm_num))
    · exact ih (fun x hx => hb x (by simp [hx])) c hc

/-- The cache key always has exactly 16 characters. -/
theorem url_to_cache_key_data_length (url : String) :
    (url_to_cache_key url).data.length = 16 := by
  show ((hexOfBytes (sha256Bytes (utf8Encode url))).take 16).length = 16
  rw [List.length_take, hexOfBytes_length, sha256Bytes_length]
  decide

/-- Every character of the cache key is a lowercase hex digit. -/
theorem url_to_cache_key_mem_hex (url : String) :
    ∀ c ∈ (url_to_cache_key url).data, c ∈ "0123456789abcdef".data := by
  intro c hc
  have hc2 : c ∈ (sha256_hexdigest (utf8Encode url)).data := List.take_subset 16 _ hc
  exact hexOfBytes_mem _ (sha256Bytes_lt _) c hc2

/-- There are infinitely many URL strings. -/
theorem string_infinite : Infinite String :=
  Infinite.of_injective (fun n : Nat => String.mk (List.replicate n 'a'))
    (fun a b h => by
      simpa using congrArg List.length (congrArg String.data h))

/-- A function from strings into 16-character hex strings cannot be
injective: the codomain is finite while the domain is infinite. -/
theorem hex16_collision (f : String → String)
    (flen : ∀ u, (f u).data.length = 16)
    (fmem : ∀ u, ∀ c ∈ (f u).data, c ∈ "0123456789abcdef".data) :
    ∃ u1 u2 : String, u1 ≠ u2 ∧ f u1 = f u2 := by
  haveI : Infinite String := string_infinite
  obtain ⟨u1, u2, hne, heq⟩ := Finite.exists_ne_map_eq_of_infinite
    (fun u : String => fun i : Fin 16 =>
      (⟨min 15 (List.indexOf ((f u).data.getD i.val '0')
          "0123456789abcdef".data), by omega⟩ : Fin 16))
  refine ⟨u1, u2, hne, ?_⟩
  have hlen1 := flen u1
  have hlen2 := flen u2
  have hdata : (f u1).data = (f u2).data := by
    apply List.ext_getElem (hlen1.trans hlen2.symm)
    intro n h1 h2
    have hn : n < 16 := by omega
    have hstep : min 15 (List.indexOf ((f u1).data.getD n '0') "0123456789abcdef".data)
        = min 15 (List.indexOf ((f u2).data.getD n '0') "0123456789abcdef".data) :=
      congrArg Fin.val (congrFun heq ⟨n, hn⟩)
    rw [List.getD_eq_getElem _ '0' h1, List.getD_eq_getElem _ '0' h2] at hstep
    have hm1 : (f u1).data[n] ∈ "0123456789abcdef".data :=
      fmem u1 _ (List.getElem_mem h1)
    have hm2 : (f u2).data[n] ∈ "0123456789abcdef".data :=
      fmem u2 _ (List.getElem_mem h2)
    have hhex : ("0123456789abcdef".data).length = 16 := rfl
    have hi1 : List.indexOf ((f u1).data[n]) "0123456789abcdef".data < 16 := by
      have h0 := List.indexOf_lt_length.mpr hm1
      omega
    have hi2 : List.indexOf ((f u2).data[n]) "0123456789abcdef".data < 16 := by
      have h0 := List.indexOf_lt_length.mpr hm2
      omega
    rw [Nat.min_eq_right (by omega), Nat.min_eq_right (by omega)] at hstep
    exact (List.indexOf_inj hm1 hm2).mp hstep
  exact congrArg String.mk hdata

/-- Some two distinct URLs share a cache key: keys live in the finite
space of 16-character hex strings while URLs are infinite, so the
truncated digest cannot be injective (pigeonhole). No concrete colliding
pair is feasibly computable, but one exists. -/
theorem url_to_cache_key_collision_exists :
    ∃ u1 u2 : String, u1 ≠ u2 ∧ url_to_cache_key u1 = url_to_cache_key u2 :=
  hex16_collision url_to_cache_key url_to_cache_key_data_length url_to_cache_key_mem_hex

/-- C9 counterexample: two distinct URLs with equal truncated cache
keys exist (pigeonhole over the finite key space), and for any such
pair, after a successful first run whose model response is the JSON
text "null", the call for the second URL re-runs the whole pipeline —
one fetch, one extraction, one model call — instead of returning the
aliased cache entry with zero calls, refuting the original claim. -/
theorem process_aliased_null_refetches_counterexample :
    ∃ u1 u2 : String, u1 ≠ u2 ∧ url_to_cache_key u1 = url_to_cache_key u2 ∧
      process_uscis_case envNull [] u1
        = (Except.ok Json.null, save_cached_case [] u1 Json.null,
           ⟨1, 1, 1, [(system_message, user_message (pyTake 12000 sampleText))]⟩) ∧
      (process_uscis_case envNull (save_cached_case [] u1 Json.null) u2).2.2
        = ⟨1, 1, 1, [(system_message, user_message (pyTake 12000 sampleText))]⟩ := by
  obtain ⟨u1, u2, hne, hkey⟩ := url_to_cache_key_collision_exists
  refine ⟨u1, u2, hne, hkey, ?_, ?_⟩
  · exact process_miss_model_json envNull [] u1 [37, 80, 68, 70] Json.null rfl rfl rfl
  · have hget : get_cached_case (save_cached_case [] u1 Json.null) u2
        = Except.ok none := by
      unfold get_cached_case save_cached_case
      rw [← hkey]
      simp [List.lookup]
    rw [process_miss_model_json envNull (save_cached_case [] u1 Json.null) u2
      [37, 80, 68, 70] Json.null hget rfl rfl]
    rfl

/-- C5: `url_to_cache_key` is exactly the first 16 characters of the
lowercase-hex SHA-256 digest of the UTF-8 encoding of the URL: a pure
function of the URL, always of length 16, consisting only of hex
characters, and two URLs receive the same key exactly when the first 16
characters of their digests agree. -/
theorem url_to_cache_key_spec (url : String) :
    url_to_cache_key url = pyTake 16 (sha256_hexdigest (utf8Encode url))
    ∧ (url_to_cache_key url).length = 16
    ∧ (∀ c ∈ (url_to_cache_key url).data, c ∈ "0123456789abcdef".data)
    ∧ ∀ url2 : String,
        (url_to_cache_key url = url_to_cache_key url2 ↔
          (sha256_hexdigest (utf8Encode url)).data.take 16
            = (sha256_hexdigest (utf8Encode url2)).data.take 16) := by
  refine ⟨rfl, ?_, ?_, ?_⟩
  · simp [url_to_cache_key, pyTake, sha256_hexdigest, String.length,
      List.length_take, hexOfBytes_length, sha256Bytes_length]
  · intro c hc
    have hc2 : c ∈ (sha256_hexdigest (utf8Encode url)).data :=
      List.take_subset 16 _ hc
    exact hexOfBytes_mem _ (sha256Bytes_lt _) c hc2
  · intro url2
    constructor
    · intro h
      have := congrArg String.data h
      simpa [url_to_cache_key, pyTake] using this
    · intro h
      simp [url_to_cache_key, pyTake, h]

/-- Witness for C5 at the spec's example URL. -/
theorem url_to_cache_key_spec_witness :
    (url_to_cache_key "https://example.org/decision.pdf").length = 16 :=
  (url_to_cache_key_spec "https://example.org/decision.pdf").2.1

/-- C6: on every cache miss whose fetch succeeds, the model is called
exactly once, with the user prompt embedding `pyTake 12000` of the
extracted text; that chunk is the prefix of the first 12000 characters,
is the whole text when the text is at most 12000 characters long, and
has length exactly 12000 — never the full text — when the text is
longer. -/
theorem truncation_boundary (env : Env) (cache : Cache) (url : String) (bs : List Nat)
    (h0 : get_cached_case cache url = Except.ok none)
    (h1 : download_pdf_bytes env.http = Except.ok bs) :
    (process_uscis_case env cache url).2.2.modelPrompts
      = [(system_message, user_message (pyTake 12000 (env.extractText bs)))]
    ∧ (pyTake 12000 (env.extractText bs)).data = (env.extractText bs).data.take 12000
    ∧ ((env.extractText bs).length ≤ 12000 →
        pyTake 12000 (env.extractText bs) = env.extractText bs)
    ∧ (12000 < (env.extractText bs).length →
        (pyTake 12000 (env.extractText bs)).length = 12000) := by
  refine ⟨?_, rfl, ?_, ?_⟩
  · cases hm : env.modelComplete system_message
        (user_message (pyTake 12000 (env.extractText bs))) with
    | jsonOf dta => rw [process_miss_model_json env cache url bs dta h0 h1 hm]
    | corrupt raw => rw [process_model_corrupt env cache url bs raw h0 h1 hm]
  · intro hle
    show String.mk ((env.extractText bs).data.take 12000) = env.extractText bs
    rw [List.take_of_length_le hle]
  · intro hgt
    show ((env.extractText bs).data.take 12000).length = 12000
    rw [List.length_take]
    have hgt2 : 12000 < (env.extractText bs).data.length := hgt
    omega

/-- Witness for C6: in the example scenario the single model call
carries the truncated (here: whole, it is short) sample text. -/
theorem truncation_boundary_witness :
    (process_uscis_case envOk [] urlEx).2.2.modelPrompts
      = [(system_message, user_message (pyTake 12000 sampleText))] :=
  (truncation_boundary envOk [] urlEx [37, 80, 68, 70] rfl rfl).1

/-- C7: when the HTTP layer yields a non-error response whose declared
Content-Type does not contain "pdf" case-insensitively, the fetcher
fails with the `ValueError` whose message carries the actual content
type and returns no bytes; when the header does contain "pdf" the body
bytes are returned. -/
theorem download_content_type_validation (resp : HttpResponse)
    (hst : ¬(400 ≤ resp.status ∧ resp.status < 600)) :
    (strContains "pdf" (pyLower (resp.contentType.getD "")) = false →
      download_pdf_bytes (Except.ok resp)
        = Except.error (PipelineError.valueError
            ("URL does not appear to be a PDF. Content-Type: " ++ resp.contentType.getD ""))
      ∧ (resp.contentType.getD "").data <:+
          ("URL does not appear to be a PDF. Content-Type: " ++ resp.contentType.getD "").data)
    ∧ (strContains "pdf" (pyLower (resp.contentType.getD "")) = true →
      download_pdf_bytes (Except.ok resp) = Except.ok resp.content) := by
  constructor
  · intro hct
    refine ⟨?_, ?_⟩
    · simp only [download_pdf_bytes]
      rw [if_neg hst]
      simp only [hct, if_true]
    · rw [String.data_append]
      exact List.suffix_append _ _
  · intro hct
    simp only [download_pdf_bytes]
    rw [if_neg hst]
    simp only [hct]
    rfl

/-- Witness for C7: an HTML response is rejected with the message
naming "text/html"; a PDF response returns its body bytes. -/
theorem download_content_type_validation_witness :
    download_pdf_bytes (Except.ok htmlResponse)
      = Except.error (PipelineError.valueError
          ("URL does not appear to be a PDF. Content-Type: " ++ "text/html"))
    ∧ download_pdf_bytes (Except.ok pdfResponse) = Except.ok pdfResponse.content :=
  ⟨((download_content_type_validation htmlResponse (by decide)).1 (by decide)).1,
   (download_content_type_validation pdfResponse (by decide)).2 (by decide)⟩

/-- C10: a successful response that carries no Content-Type header at
all is treated as declaring the empty string, which fails the "pdf"
containment check, so the fetcher raises the content-type `ValueError`
instead of returning the body bytes. -/
theorem download_missing_content_type (resp : HttpResponse)
    (hst : ¬(400 ≤ resp.status ∧ resp.status < 600))
    (hct : resp.contentType = none) :
    download_pdf_bytes (Except.ok resp)
      = Except.error (PipelineError.valueError
          ("URL does not appear to be a PDF. Content-Type: " ++ "")) := by
  simp only [download_pdf_bytes]
  rw [if_neg hst, hct]
  rfl

/-- Witness for C10: a concrete 200 response with no Content-Type
header is rejected. -/
theorem download_missing_content_type_witness :
    download_pdf_bytes (Except.ok bareResponse)
      = Except.error (PipelineError.valueError
          ("URL does not appear to be a PDF. Content-Type: " ++ "")) :=
  download_missing_content_type bareResponse (by decide) rfl

/-! ## Claims C2 and C8: the orchestrator applies no post-processing -/

/-- The example record with its case_id set to the literal "unknown". -/
def unknownRecord : Json :=
  Json.obj [("case_id", Json.str "unknown"), ("visa_type", Json.str "O-1"),
    ("case_type", Json.str "unknown"), ("beneficiary_role", Json.null),
    ("decision_outcome", Json.str "approved"), ("decision_date", Json.null),
    ("service_center", Json.null), ("aao_docket_number", Json.null),
    ("regulatory_citations", Json.arr []), ("issues", Json.arr []),
    ("criteria_met", Json.arr []), ("criteria_not_met", Json.arr []),
    ("procedural_issues", Json.arr []), ("key_evidence", Json.arr []),
    ("risk_factors", Json.arr []), ("notes", Json.str "")]

/-- A mocked environment whose model finds no case id. -/
def envUnknown : Env :=
  ⟨Except.ok pdfResponse, fun _ => sampleText, fun _ _ => FileBytes.jsonOf unknownRecord⟩

/-- A parseable model response that ignores the schema entirely. -/
def badRecord : Json := Json.obj [("foo", Json.num 1)]

/-- A mocked environment whose model returns `badRecord`. -/
def envSchemaBad : Env :=
  ⟨Except.ok pdfResponse, fun _ => sampleText, fun _ _ => FileBytes.jsonOf badRecord⟩

/-- C2 counterexample: a successful `process_uscis_case` run on a cache
miss whose model response carries case_id "unknown" returns that record
with case_id still the literal "unknown" — no fallback identifier is
substituted, contradicting the claim. -/
theorem process_case_id_stays_unknown_counterexample :
    (process_uscis_case envUnknown [] urlEx).1 = Except.ok unknownRecord
    ∧ jsonField unknownRecord "case_id" = some (Json.str "unknown") :=
  ⟨rfl, rfl⟩

/-- C2 (amended): the URL pipeline returns the model's parsed JSON
verbatim — in particular case_id exactly as the model gave it; the
"replace a falsy/None/empty/unknown case_id with the filename-derived
identifier" correction exists only in the standalone day4 script, where
it rewrites the case_id field exactly as described. -/
theorem process_returns_model_case_id_verbatim
    (env : Env) (cache : Cache) (url : String) (bs : List Nat) (dta : Json)
    (h0 : get_cached_case cache url = Except.ok none)
    (h1 : download_pdf_bytes env.http = Except.ok bs)
    (h2 : env.modelComplete system_message (user_message (pyTake 12000 (env.extractText bs)))
        = FileBytes.jsonOf dta) :
    (process_uscis_case env cache url).1 = Except.ok dta
    ∧ ∀ (fs : List (String × Json)) (pdf_path : String),
        fs.lookup "case_id" = some (Json.str "unknown") →
        day4_apply_case_id_fallback fs pdf_path
          = objUpdate fs "case_id" (Json.str (os_path_basename pdf_path)) := by
  constructor
  · rw [process_miss_model_json env cache url bs dta h0 h1 h2]
  · intro fs pdf_path hfs
    unfold day4_apply_case_id_fallback
    rw [hfs]
    simp [case_id_needs_fallback, pyFalsy]

/-- Witness for the amended C2, at the concrete "unknown" scenario. -/
theorem process_returns_model_case_id_verbatim_witness :
    (process_uscis_case envUnknown [] urlEx).1 = Except.ok unknownRecord :=
  (process_returns_model_case_id_verbatim envUnknown [] urlEx [37, 80, 68, 70]
    unknownRecord rfl rfl rfl).1

/-- C8 counterexample: the pipeline accepts (returns and would cache) a
parseable model response that has none of the sixteen required fields
and no decision_outcome at all, contradicting the claim that every
returned record has the fixed field set and a permitted outcome. -/
theorem process_accepts_schemaless_record_counterexample :
    (process_uscis_case envSchemaBad [] urlEx).1 = Except.ok badRecord
    ∧ hasSchema badRecord = false
    ∧ outcomeOk badRecord = false :=
  ⟨rfl, rfl, rfl⟩

/-- C8 (amended): `process_uscis_case` performs no schema or enum
validation — any record it returns successfully is, verbatim, either
the cached record or the model's parsed JSON; the fixed field set and
the seven decision_outcome values are enforced only as prompt text, so
the returned record satisfies them exactly when its source does. -/
theorem process_record_verbatim_from_cache_or_model
    (env : Env) (cache : Cache) (url : String) (d : Json) (c2 : Cache) (t : Trace)
    (h : process_uscis_case env cache url = (Except.ok d, c2, t)) :
    get_cached_case cache url = Except.ok (some d)
    ∨ ∃ bs, download_pdf_bytes env.http = Except.ok bs
        ∧ env.modelComplete system_message (user_message (pyTake 12000 (env.extractText bs)))
          = FileBytes.jsonOf d := by
  cases hgc : get_cached_case cache url with
  | error e => rw [process_cache_error env cache url e hgc] at h; simp at h
  | ok o =>
    cases o with
    | some cached =>
      left
      rw [process_cache_hit env cache url cached hgc] at h
      simp only [Prod.mk.injEq, Except.ok.injEq] at h
      obtain ⟨h1, h2, h3⟩ := h
      subst h1
      rfl
    | none =>
      cases hd : download_pdf_bytes env.http with
      | error e => rw [process_fetch_error env cache url e hgc hd] at h; simp at h
      | ok bs =>
        cases hm : env.modelComplete system_message
            (user_message (pyTake 12000 (env.extractText bs))) with
        | corrupt raw =>
          rw [process_model_corrupt env cache url bs raw hgc hd hm] at h; simp at h
        | jsonOf dta =>
          right
          rw [process_miss_model_json env cache url bs dta hgc hd hm] at h
          simp only [Prod.mk.injEq, Except.ok.injEq] at h
          obtain ⟨h1, h2, h3⟩ := h
          subst h1
          exact ⟨bs, rfl, hm⟩

/-- Witness for the amended C8: in the schemaless scenario the returned
record is exactly the model's JSON. -/
theorem process_record_verbatim_from_cache_or_model_witness :
    get_cached_case ([] : Cache) urlEx = Except.ok (some badRecord)
    ∨ ∃ bs, download_pdf_bytes envSchemaBad.http = Except.ok bs
        ∧ envSchemaBad.modelComplete system_message
            (user_message (pyTake 12000 (envSchemaBad.extractText bs)))
          = FileBytes.jsonOf badRecord :=
  process_record_verbatim_from_cache_or_model envSchemaBad [] urlEx badRecord
    (save_cached_case [] urlEx badRecord)
    ⟨1, 1, 1, [(system_message, user_message (pyTake 12000 sampleText))]⟩ rfl
